import Mathlib

/-!
Shallow embedding of `computeSales.py`: a command-line utility that builds a
price lookup table from a JSON catalogue, totals each sale of a JSON sales
record, and renders a report.  JSON values are modelled by the inductive
`JValue`; Python floats are modelled as exact rationals (`ℚ`), so arithmetic
is exact where the Python runtime would round in binary floating point.
Error accumulation (Python's shared mutable `errors` list) is modelled by
explicit threading: each function takes the error list and returns the
extended one.
-/

/-- JSON-like values as produced by `json.load`: null, booleans, integers,
floats (modelled as rationals), strings, arrays and objects. -/
inductive JValue where
  | null : JValue
  | bool (b : Bool) : JValue
  | int (n : Int) : JValue
  | float (q : ℚ) : JValue
  | str (s : String) : JValue
  | arr (xs : List JValue) : JValue
  | obj (fields : List (String × JValue)) : JValue

/-- `v.isNull` tests for Python `None` (JSON null). -/
def JValue.isNull : JValue → Bool
  | .null => true
  | _ => false

/-- `v.isArr` tests whether the value is a JSON array (a Python `list`). -/
def JValue.isArr : JValue → Bool
  | .arr _ => true
  | _ => false

/-- Python `dict.get k`: the value stored under `k`, or `None` when the key is
absent.  A JSON null value and an absent key are indistinguishable here, just
as they are to the `is None` checks in the source. -/
def objGet (fields : List (String × JValue)) (k : String) : JValue :=
  match fields.find? (fun p => p.1 = k) with
  | some p => p.2
  | none => JValue.null

/-- Python `str.strip()`: remove leading and trailing whitespace. -/
def pyStrip (s : String) : String :=
  String.mk (((s.data.dropWhile Char.isWhitespace).reverse.dropWhile Char.isWhitespace).reverse)

/-- Rendering of a float in diagnostics.  Floats are modelled as rationals, so
their textual form is the rational's canonical rendering. -/
def ratRepr (q : ℚ) : String :=
  if q.den = 1 then toString q.num else toString q.num ++ "/" ++ toString q.den

mutual

/-- Python `repr` of a JSON-derived value (used by `str` on containers). -/
def pyRepr : JValue → String
  | .null => "None"
  | .bool b => if b then "True" else "False"
  | .int n => toString n
  | .float q => ratRepr q
  | .str s => "'" ++ s ++ "'"
  | .arr xs => "[" ++ pyReprList xs ++ "]"
  | .obj fs => "\x7b" ++ pyReprObj fs ++ "\x7d"

/-- Comma-separated reprs of a list's elements. -/
def pyReprList : List JValue → String
  | [] => ""
  | [x] => pyRepr x
  | x :: y :: xs => pyRepr x ++ ", " ++ pyReprList (y :: xs)

/-- Comma-separated reprs of an object's key/value pairs. -/
def pyReprObj : List (String × JValue) → String
  | [] => ""
  | [(k, v)] => "'" ++ k ++ "': " ++ pyRepr v
  | (k, v) :: y :: xs => "'" ++ k ++ "': " ++ pyRepr v ++ ", " ++ pyReprObj (y :: xs)

end

/-- Python `str(v)`: the string itself for strings, `repr`-style text
otherwise. -/
def pyStr : JValue → String
  | .str s => s
  | v => pyRepr v

/-- Digits (most significant first) to the natural number they denote. -/
def digitsToNat (cs : List Char) : Nat :=
  cs.foldl (fun a c => a * 10 + (c.toNat - 48)) 0

/-- Parse an optional leading sign; returns (isNegative, rest). -/
def parseSign : List Char → Bool × List Char
  | '-' :: cs => (true, cs)
  | '+' :: cs => (false, cs)
  | cs => (false, cs)

/-- Split a leading run of decimal digits from the rest. -/
def takeDigits : List Char → List Char × List Char
  | [] => ([], [])
  | c :: cs =>
    if c.isDigit then
      let r := takeDigits cs
      (c :: r.1, r.2)
    else ([], c :: cs)

/-- Parse the tail of a float literal: either empty, or an exponent part
`e[sign]digits` consuming the whole rest. -/
def parseExp : List Char → Option Int
  | [] => some 0
  | c :: cs =>
    if c = 'e' ∨ c = 'E' then
      let sg := parseSign cs
      let ds := takeDigits sg.2
      if ds.1.isEmpty ∨ ¬ ds.2.isEmpty then none
      else some (if sg.1 then -(digitsToNat ds.1 : Int) else (digitsToNat ds.1 : Int))
    else none

/-- Python `float(s)` on a string, restricted to finite decimal literals:
optional surrounding whitespace, optional sign, digits with optional decimal
point and optional exponent.  (`inf`/`nan` literals are outside the rational
model and are not accepted.) -/
def parseFloat (s : String) : Option ℚ :=
  let cs := (pyStrip s).data
  let sg := parseSign cs
  let ip := takeDigits sg.2
  let fr : List Char × List Char :=
    match ip.2 with
    | '.' :: rest => takeDigits rest
    | other => ([], other)
  if ip.1.isEmpty ∧ fr.1.isEmpty then none
  else
    match parseExp fr.2 with
    | none => none
    | some e =>
      let mant : ℚ := (digitsToNat (ip.1 ++ fr.1) : ℚ) / ((10 : ℚ) ^ fr.1.length)
      let mag : ℚ := mant * (10 : ℚ) ^ e
      some (if sg.1 then -mag else mag)

/-- Python `int(s)` on a string: optional surrounding whitespace, optional
sign, one or more digits. -/
def parseInt (s : String) : Option Int :=
  let cs := (pyStrip s).data
  let sg := parseSign cs
  if sg.2.isEmpty ∨ ¬ sg.2.all Char.isDigit then none
  else some (if sg.1 then -(digitsToNat sg.2 : Int) else (digitsToNat sg.2 : Int))

/-- Truncation of a rational toward zero, the behaviour of Python `int` on a
float. -/
def ratTrunc (q : ℚ) : Int := q.num.tdiv (q.den : Int)

/-- Python `float(v)` on a JSON-derived value: numbers and booleans coerce,
strings are parsed, everything else raises (`none`). -/
def coerceFloat : JValue → Option ℚ
  | .int n => some (n : ℚ)
  | .float q => some q
  | .bool b => some (if b then 1 else 0)
  | .str s => parseFloat s
  | _ => none

/-- Python `int(v)` on a JSON-derived value: integers pass through, floats
truncate toward zero, booleans coerce, strings are parsed as integer
literals, everything else raises (`none`). -/
def coerceInt : JValue → Option Int
  | .int n => some n
  | .float q => some (ratTrunc q)
  | .bool b => some (if b then 1 else 0)
  | .str s => parseInt s
  | _ => none

/-- A price table (Python `dict`) as an insertion-ordered association list;
`dictLookup` is key lookup (`k in m` / `m[k]`). -/
def dictLookup : List (String × ℚ) → String → Option ℚ
  | [], _ => none
  | p :: rest, k => if p.1 = k then some p.2 else dictLookup rest k

/-- Python `dict` assignment `m[k] = v`: replace the value in place when the
key is already present, append otherwise. -/
def dictInsert : List (String × ℚ) → String → ℚ → List (String × ℚ)
  | [], k, v => [(k, v)]
  | (k', v') :: rest, k, v =>
    if k' = k then (k, v) :: rest else (k', v') :: dictInsert rest k v

/-- Processing of one catalogue entry inside the loop of `build_price_map`:
either the key/price pair that gets stored, or the error message that gets
appended (the entry is skipped). -/
def entryOutcome (idx : Nat) (entry : JValue) : Except String (String × ℚ) :=
  match entry with
  | .obj fields =>
    let title := objGet fields "title"
    let price := objGet fields "price"
    if title.isNull || price.isNull then
      .error ("Catalogue entry " ++ toString idx ++ ": missing 'title' or 'price'.")
    else
      match coerceFloat price with
      | none =>
        .error ("Catalogue entry " ++ toString idx ++ ": invalid price for '" ++ pyStr title ++ "'.")
      | some price_float =>
        if price_float < 0 then
          .error ("Catalogue entry " ++ toString idx ++ ": negative price for '" ++ pyStr title ++ "'.")
        else .ok (pyStrip (pyStr title), price_float)
  | _ => .error ("Catalogue entry " ++ toString idx ++ ": expected object, got invalid type.")

/-- The `for idx, entry in enumerate(catalogue_data)` loop of
`build_price_map`, with the running index, table and error list explicit. -/
def catLoop : List JValue → Nat → List (String × ℚ) → List String → List (String × ℚ) × List String
  | [], _, price_map, errors => (price_map, errors)
  | entry :: rest, idx, price_map, errors =>
    match entryOutcome idx entry with
    | .ok kv => catLoop rest (idx + 1) (dictInsert price_map kv.1 kv.2) errors
    | .error msg => catLoop rest (idx + 1) price_map (errors ++ [msg])

/-- `build_price_map(catalogue_data, errors)`: product name → price table
plus the extended error list. -/
def build_price_map (catalogue_data : JValue) (errors : List String) :
    List (String × ℚ) × List String :=
  match catalogue_data with
  | .arr xs => catLoop xs 0 [] errors
  | _ => ([], errors ++ ["Catalogue must be a JSON array of products."])

/-- Processing of one line item inside the loop of `compute_sale_total`:
either the amount `price * qty` it contributes, or the error message that
gets appended (the item is skipped). -/
def itemOutcome (price_map : List (String × ℚ)) (sale_index idx : Nat) (line_item : JValue) :
    Except String ℚ :=
  match line_item with
  | .obj fields =>
    let product := objGet fields "product"
    let quantity := objGet fields "quantity"
    if product.isNull || quantity.isNull then
      .error ("Sale " ++ toString sale_index ++ ", item " ++ toString idx ++
        ": missing 'product' or 'quantity'.")
    else
      match coerceInt quantity with
      | none =>
        .error ("Sale " ++ toString sale_index ++ ", item " ++ toString idx ++
          ": invalid quantity for '" ++ pyStr product ++ "'.")
      | some qty =>
        if qty < 0 then
          .error ("Sale " ++ toString sale_index ++ ", item " ++ toString idx ++
            ": negative quantity for '" ++ pyStr product ++ "'.")
        else
          match dictLookup price_map (pyStrip (pyStr product)) with
          | none =>
            .error ("Sale " ++ toString sale_index ++ ", item " ++ toString idx ++
              ": product '" ++ pyStr product ++ "' not in catalogue.")
          | some price => .ok (price * (qty : ℚ))
  | _ => .error ("Sale " ++ toString sale_index ++ ", item " ++ toString idx ++ ": expected object.")

/-- The `for idx, line_item in enumerate(items)` loop of
`compute_sale_total`, with the running index, total, item count and error
list explicit. -/
def saleLoop (price_map : List (String × ℚ)) (sale_index : Nat) :
    List JValue → Nat → ℚ → Nat → List String → (ℚ × Nat) × List String
  | [], _, total, item_count, errors => ((total, item_count), errors)
  | line_item :: rest, idx, total, item_count, errors =>
    match itemOutcome price_map sale_index idx line_item with
    | .ok v => saleLoop price_map sale_index rest (idx + 1) (total + v) (item_count + 1) errors
    | .error msg => saleLoop price_map sale_index rest (idx + 1) total item_count (errors ++ [msg])

/-- `compute_sale_total(items, price_map, sale_index, errors)`: the
`(total, item_count)` pair for one sale, plus the extended error list. -/
def compute_sale_total (items : JValue) (price_map : List (String × ℚ)) (sale_index : Nat)
    (errors : List String) : (ℚ × Nat) × List String :=
  match items with
  | .arr xs => saleLoop price_map sale_index xs 0 0 0 errors
  | _ => ((0, 0), errors ++ ["Sale " ++ toString sale_index ++ ": 'items' must be an array."])

/-- The `for sale_index, sale in enumerate(sales_data)` loop of
`compute_all_sales`, with the running index, result list and error list
explicit. -/
def salesLoop (price_map : List (String × ℚ)) :
    List JValue → Nat → List (Nat × ℚ) → List String → List (Nat × ℚ) × List String
  | [], _, results, errors => (results, errors)
  | sale :: rest, sale_index, results, errors =>
    match sale with
    | .obj fields =>
      let items := objGet fields "items"
      if items.isNull then
        salesLoop price_map rest (sale_index + 1) results
          (errors ++ ["Sale " ++ toString sale_index ++ ": missing 'items'."])
      else
        let r := compute_sale_total items price_map sale_index errors
        salesLoop price_map rest (sale_index + 1) (results ++ [(sale_index, r.1.1)]) r.2
    | _ =>
      salesLoop price_map rest (sale_index + 1) results
        (errors ++ ["Sale " ++ toString sale_index ++ ": expected object, got invalid type."])

/-- `compute_all_sales(sales_data, price_map, errors)`: the list of
`(sale_index, total)` results plus the extended error list. -/
def compute_all_sales (sales_data : JValue) (price_map : List (String × ℚ))
    (errors : List String) : List (Nat × ℚ) × List String :=
  match sales_data with
  | .arr xs => salesLoop price_map xs 0 [] errors
  | _ => ([], errors ++ ["Sales record must be a JSON array of sales."])

/-- Round-half-to-even to the nearest integer, the rounding used by Python's
fixed-point float formatting (on the rational model of the float). -/
def rhe (q : ℚ) : Int :=
  let f := ⌊q⌋
  let r := q - (f : ℚ)
  if r < 1/2 then f else if 1/2 < r then f + 1 else if f % 2 = 0 then f else f + 1

/-- Left-pad a digit string with zeros to a given width. -/
def padZeros (width : Nat) (s : String) : String :=
  String.mk (List.replicate (width - s.length) '0') ++ s

/-- Python `f"{value:.nd f}"` on the rational model: fixed-point rendering
with `nd` digits after the decimal point. -/
def formatFixed (nd : Nat) (value : ℚ) : String :=
  let n := rhe (value * (10 : ℚ) ^ nd)
  let sign := if n < 0 then "-" else ""
  let a := n.natAbs
  sign ++ toString (a / 10 ^ nd) ++ "." ++ padZeros nd (toString (a % 10 ^ nd))

/-- `format_currency(value)`: two-decimal fixed-point rendering. -/
def format_currency (value : ℚ) : String := formatFixed 2 value

/-- The `"=" * 60` banner line. -/
def bannerEq : String := String.mk (List.replicate 60 '=')

/-- The `"-" * 60` separator line. -/
def bannerDash : String := String.mk (List.replicate 60 '-')

/-- The `lines` list built by `print_and_write_results`. -/
def reportLines (sale_results : List (Nat × ℚ)) (grand_total : ℚ) (elapsed_time : ℚ)
    (errors : List String) : List String :=
  [bannerEq, "SALES RESULTS", bannerEq, ""] ++
  (if errors.isEmpty then [] else
    ["WARNINGS / INVALID DATA (execution continued):", bannerDash] ++
    errors.map (fun err => "  - " ++ err) ++ ["", bannerDash, ""]) ++
  ["SALE BREAKDOWN", bannerDash] ++
  sale_results.map (fun p => "  Sale #" ++ toString p.1 ++ ": " ++ format_currency p.2) ++
  [bannerDash, "GRAND TOTAL: " ++ format_currency grand_total, "", bannerEq,
   "Elapsed time: " ++ formatFixed 6 elapsed_time ++ " seconds", bannerEq]

/-- The `text = "\n".join(lines)` report of `print_and_write_results`. -/
def reportText (sale_results : List (Nat × ℚ)) (grand_total : ℚ) (elapsed_time : ℚ)
    (errors : List String) : String :=
  String.intercalate "\x0a" (reportLines sale_results grand_total elapsed_time errors)

/-- `print_and_write_results`: returns the text printed to the console and
the text persisted to the output file (`none` when the write raises, which
the function catches and survives). -/
def print_and_write_results (sale_results : List (Nat × ℚ)) (grand_total : ℚ)
    (elapsed_time : ℚ) (errors : List String) (writeOk : Bool) : String × Option String :=
  let text := reportText sale_results grand_total elapsed_time errors
  (text, if writeOk then some text else none)

/-- Outcome of a run of `main` after both input files parsed: either a fatal
message-and-exit, or a produced report. -/
inductive MainResult where
  | fatal (printed : String) (exitCode : Nat) : MainResult
  | report (saleResults : List (Nat × ℚ)) (grandTotal : ℚ) (errors : List String)
      (console : String) (file : Option String) (exitCode : Nat) : MainResult

/-- The computation pipeline of `main` from the two successfully loaded JSON
documents onward: build the price table, bail out on an empty table, total
the sales, sum the grand total, and render the report.  File loading and the
wall clock are external inputs (`elapsed_time`, `writeOk`). -/
def mainRun (catalogue_data sales_data : JValue) (elapsed_time : ℚ) (writeOk : Bool) :
    MainResult :=
  let r1 := build_price_map catalogue_data []
  if r1.1.isEmpty then
    .fatal "No valid products in catalogue. Cannot compute sales." 1
  else
    let r2 := compute_all_sales sales_data r1.1 r1.2
    let grand_total := (r2.1.map (fun p => p.2)).sum
    let out := print_and_write_results r2.1 grand_total elapsed_time r2.2 writeOk
    .report r2.1 grand_total r2.2 out.1 out.2 0

/-- A line item is well formed for a price table when it is an object
carrying a (non-null) `product` whose trimmed string form is a key of the
table, and a `quantity` that coerces to a non-negative integer. -/
def wellFormedItem (price_map : List (String × ℚ)) (it : JValue) : Bool :=
  match it with
  | .obj fields =>
    match coerceInt (objGet fields "quantity") with
    | some qty =>
      !(objGet fields "product").isNull && !(decide (qty < 0)) &&
        (dictLookup price_map (pyStrip (pyStr (objGet fields "product")))).isSome
    | none => false
  | _ => false

/-- The amount `price[product] * quantity` a line item is worth against a
price table (0 when it does not resolve). -/
def itemValue (price_map : List (String × ℚ)) (it : JValue) : ℚ :=
  match it with
  | .obj fields =>
    match coerceInt (objGet fields "quantity"),
        dictLookup price_map (pyStrip (pyStr (objGet fields "product"))) with
    | some qty, some price => price * (qty : ℚ)
    | _, _ => 0
  | _ => 0

/-- A sale produces a Sale Result exactly when it is an object whose
`items` field is present (non-null). -/
def saleAccepted : JValue → Bool
  | .obj fields => !(objGet fields "items").isNull
  | _ => false

/-- The total the Sale Evaluator computes for an accepted sale. -/
def saleValue (price_map : List (String × ℚ)) (sale_index : Nat) (sale : JValue) : ℚ :=
  match sale with
  | .obj fields => (compute_sale_total (objGet fields "items") price_map sale_index []).1.1
  | _ => 0

/-- The Sale Results the Sales Aggregator is expected to emit: one
`(input position, total)` pair per accepted sale, skipped sales leaving
gaps in the index sequence. -/
def expectedResults (price_map : List (String × ℚ)) : List JValue → Nat → List (Nat × ℚ)
  | [], _ => []
  | sale :: rest, i =>
    if saleAccepted sale then
      (i, saleValue price_map i sale) :: expectedResults price_map rest (i + 1)
    else expectedResults price_map rest (i + 1)

/-- The key/price pair a catalogue entry stores when it passes validation
(`none` when it is skipped); the index-independent content of
`entryOutcome`. -/
def entryValid (entry : JValue) : Option (String × ℚ) :=
  match entry with
  | .obj fields =>
    let title := objGet fields "title"
    let price := objGet fields "price"
    if title.isNull || price.isNull then none
    else
      match coerceFloat price with
      | none => none
      | some price_float =>
        if price_float < 0 then none else some (pyStrip (pyStr title), price_float)
  | _ => none

/-- First-some choice on optional prices. -/
def optOr : Option ℚ → Option ℚ → Option ℚ
  | some v, _ => some v
  | none, b => b

/-- The price a valid entry contributes under key `k` (none otherwise). -/
def keyHit (entry : JValue) (k : String) : Option ℚ :=
  match entryValid entry with
  | some kv => if kv.1 = k then some kv.2 else none
  | none => none

/-- The price the *last* valid catalogue entry with normalized title `k`
carries — the expected content of the Price Table under last-write-wins. -/
def lastValid (xs : List JValue) (k : String) : Option ℚ :=
  match xs with
  | [] => none
  | entry :: rest => optOr (lastValid rest k) (keyHit entry k)

theorem coerceInt_isNull_false (v : JValue) (q : Int) (h : coerceInt v = some q) :
    v.isNull = false := by
  cases v
  case null => simp [coerceInt] at h
  all_goals rfl

theorem itemOutcome_of_wf (price_map : List (String × ℚ)) (si idx : Nat) (it : JValue)
    (h : wellFormedItem price_map it = true) :
    itemOutcome price_map si idx it = .ok (itemValue price_map it) := by
  cases it
  case obj fields =>
    simp only [wellFormedItem] at h
    cases hq : coerceInt (objGet fields "quantity") with
    | none => rw [hq] at h; simp at h
    | some qty =>
      rw [hq] at h
      simp only [Bool.and_eq_true, Bool.not_eq_true', decide_eq_false_iff_not,
        Option.isSome_iff_exists] at h
      obtain ⟨⟨hp, hq0⟩, price, hl⟩ := h
      have hqn := coerceInt_isNull_false _ _ hq
      simp [itemOutcome, itemValue, hp, hqn, hq, hl, hq0]
  all_goals simp [wellFormedItem] at h

theorem saleLoop_wf (price_map : List (String × ℚ)) (si : Nat) (xs : List JValue)
    (h : ∀ it ∈ xs, wellFormedItem price_map it = true) (idx : Nat) (total : ℚ)
    (count : Nat) (errs : List String) :
    saleLoop price_map si xs idx total count errs =
      ((total + (xs.map (itemValue price_map)).sum, count + xs.length), errs) := by
  induction xs generalizing idx total count with
  | nil => simp [saleLoop]
  | cons it rest ih =>
    have hw := h it (List.mem_cons_self it rest)
    have hr : ∀ x ∈ rest, wellFormedItem price_map x = true :=
      fun x hx => h x (List.mem_cons_of_mem _ hx)
    simp only [saleLoop, itemOutcome_of_wf price_map si idx it hw, ih hr]
    simp only [List.map_cons, List.sum_cons, List.length_cons, Prod.mk.injEq]
    exact ⟨⟨by ring, by omega⟩, trivial⟩

/-- C1: for a sale whose `items` is a list and whose every line item is an
object carrying a product present (after trimming its string form) in the
price table and a quantity coercing to a non-negative integer,
`compute_sale_total` returns the sum of `price[product] * quantity` over
the items as the total, the number of items as the item count, and appends
no error. -/
theorem C1_sale_total (items : List JValue) (price_map : List (String × ℚ))
    (sale_index : Nat) (errors : List String)
    (h : ∀ it ∈ items, wellFormedItem price_map it = true) :
    compute_sale_total (JValue.arr items) price_map sale_index errors =
      (((items.map (itemValue price_map)).sum, items.length), errors) := by
  have hl := saleLoop_wf price_map sale_index items h 0 0 0 errors
  simpa [compute_sale_total] using hl

/-- Witness for C1 at a concrete sale: two items priced 2 and 5/2 with
quantities 3 and 2 total to 11, with item count 2 and no errors. -/
theorem C1_witness :
    compute_sale_total
      (JValue.arr
        [JValue.obj [("product", JValue.str "Widget"), ("quantity", JValue.int 3)],
         JValue.obj [("product", JValue.str " Gadget "), ("quantity", JValue.str "2")]])
      [("Widget", 2), ("Gadget", 5/2)] 0 [] = ((11, 2), []) := by
  have h := C1_sale_total
    [JValue.obj [("product", JValue.str "Widget"), ("quantity", JValue.int 3)],
     JValue.obj [("product", JValue.str " Gadget "), ("quantity", JValue.str "2")]]
    [("Widget", 2), ("Gadget", 5/2)] 0 [] (by with_unfolding_all decide)
  rw [h]
  with_unfolding_all decide

/-- C4: quantity coercion accepts numeric values (integers pass through,
floats truncate toward zero, booleans coerce) and integer-looking text, and
rejects fractional-only or non-numeric text such as "4.0" or "abc"; in the
Sale Evaluator a failed coercion appends the indexed "invalid quantity"
error and skips the item, while a successful non-negative coercion of a
priced product accrues the item. -/
theorem C4_quantity_coercion :
    (∀ n : Int, coerceInt (JValue.int n) = some n) ∧
    (∀ q : ℚ, coerceInt (JValue.float q) = some (ratTrunc q)) ∧
    coerceInt (JValue.str " 12 ") = some 12 ∧
    coerceInt (JValue.str "4.0") = none ∧
    coerceInt (JValue.str "abc") = none ∧
    (∀ (price_map : List (String × ℚ)) (sale_index : Nat) (fields : List (String × JValue))
      (rest : List JValue) (idx : Nat) (total : ℚ) (count : Nat) (errs : List String),
      (objGet fields "product").isNull = false →
      (objGet fields "quantity").isNull = false →
      coerceInt (objGet fields "quantity") = none →
      saleLoop price_map sale_index (JValue.obj fields :: rest) idx total count errs =
        saleLoop price_map sale_index rest (idx + 1) total count
          (errs ++ ["Sale " ++ toString sale_index ++ ", item " ++ toString idx ++
            ": invalid quantity for '" ++ pyStr (objGet fields "product") ++ "'."])) ∧
    (∀ (price_map : List (String × ℚ)) (sale_index : Nat) (fields : List (String × JValue))
      (rest : List JValue) (idx : Nat) (total : ℚ) (count : Nat) (errs : List String)
      (qty : Int) (price : ℚ),
      (objGet fields "product").isNull = false →
      coerceInt (objGet fields "quantity") = some qty →
      ¬ qty < 0 →
      dictLookup price_map (pyStrip (pyStr (objGet fields "product"))) = some price →
      saleLoop price_map sale_index (JValue.obj fields :: rest) idx total count errs =
        saleLoop price_map sale_index rest (idx + 1) (total + price * (qty : ℚ))
          (count + 1) errs) := by
  refine ⟨fun n => rfl, fun q => rfl, by decide, by decide, by decide, ?_, ?_⟩
  · intro price_map sale_index fields rest idx total count errs hp hqn hc
    simp [saleLoop, itemOutcome, hp, hqn, hc]
  · intro price_map sale_index fields rest idx total count errs qty price hp hq hq0 hl
    have hqn := coerceInt_isNull_false _ _ hq
    simp [saleLoop, itemOutcome, hp, hqn, hq, hq0, hl]

/-- Witness for C4: the textual quantity "4.0" is rejected with the indexed
invalid-quantity error while the item is skipped (totals unchanged). -/
theorem C4_witness :
    saleLoop [("Widget", (2 : ℚ))] 0
        [JValue.obj [("product", JValue.str "Widget"), ("quantity", JValue.str "4.0")]]
        0 0 0 [] =
      saleLoop [("Widget", (2 : ℚ))] 0 [] (0 + 1) 0 0
        ([] ++ ["Sale " ++ toString 0 ++ ", item " ++ toString 0 ++
          ": invalid quantity for '" ++
          pyStr (objGet [("product", JValue.str "Widget"), ("quantity", JValue.str "4.0")]
            "product") ++ "'."]) :=
  C4_quantity_coercion.2.2.2.2.2.1 [("Widget", 2)] 0
    [("product", JValue.str "Widget"), ("quantity", JValue.str "4.0")] [] 0 0 0 []
    (by decide) (by decide) (by decide)

/-- C10: a line item whose quantity is a fractional float (e.g. 4.7) is not
rejected: the integer coercion truncates it toward zero, and the item
contributes `price * truncated_quantity` to the total and counts as a
priced item. -/
theorem C10_fractional_quantity (price_map : List (String × ℚ)) (sale_index : Nat)
    (fields : List (String × JValue)) (rest : List JValue) (idx : Nat) (total : ℚ)
    (count : Nat) (errs : List String) (q : ℚ) (price : ℚ)
    (hp : (objGet fields "product").isNull = false)
    (hq : objGet fields "quantity" = JValue.float q)
    (h0 : ¬ ratTrunc q < 0)
    (hl : dictLookup price_map (pyStrip (pyStr (objGet fields "product"))) = some price) :
    coerceInt (JValue.float q) = some (ratTrunc q) ∧
    saleLoop price_map sale_index (JValue.obj fields :: rest) idx total count errs =
      saleLoop price_map sale_index rest (idx + 1) (total + price * ((ratTrunc q : Int) : ℚ))
        (count + 1) errs := by
  refine ⟨rfl, ?_⟩
  have h2 : (JValue.float q).isNull = false := rfl
  simp [saleLoop, itemOutcome, hp, hq, h2, coerceInt, h0, hl]

/-- Witness for C10: quantity 4.7 truncates to 4 and the item is priced. -/
theorem C10_witness :
    coerceInt (JValue.float (47/10)) = some (ratTrunc (47/10)) ∧
    saleLoop [("Widget", (2 : ℚ))] 0
        [JValue.obj [("product", JValue.str "Widget"), ("quantity", JValue.float (47/10))]]
        0 0 0 [] =
      saleLoop [("Widget", (2 : ℚ))] 0 [] (0 + 1) (0 + 2 * ((ratTrunc (47/10) : Int) : ℚ))
        (0 + 1) [] :=
  C10_fractional_quantity [("Widget", 2)] 0
    [("product", JValue.str "Widget"), ("quantity", JValue.float (47/10))] [] 0 0 0 []
    (47/10) 2 (by decide) rfl (by with_unfolding_all decide) (by with_unfolding_all decide)

/-- C7: when the top-level input is not a sequence, `build_price_map`
appends exactly one error and returns the empty table, and
`compute_sale_total` appends exactly one error and returns (0, 0); no
element-level errors follow. -/
theorem C7_not_a_sequence (v : JValue) (price_map : List (String × ℚ)) (sale_index : Nat)
    (e1 e2 : List String) (h : v.isArr = false) :
    build_price_map v e1 = ([], e1 ++ ["Catalogue must be a JSON array of products."]) ∧
    compute_sale_total v price_map sale_index e2 =
      ((0, 0), e2 ++ ["Sale " ++ toString sale_index ++ ": 'items' must be an array."]) := by
  cases v
  case arr xs => simp [JValue.isArr] at h
  all_goals exact ⟨rfl, rfl⟩

/-- Witness for C7 at the non-sequence value 5. -/
theorem C7_witness :
    build_price_map (JValue.int 5) [] =
      ([], [] ++ ["Catalogue must be a JSON array of products."]) ∧
    compute_sale_total (JValue.int 5) [("Widget", (2 : ℚ))] 3 [] =
      ((0, 0), [] ++ ["Sale " ++ toString 3 ++ ": 'items' must be an array."]) :=
  C7_not_a_sequence (JValue.int 5) [("Widget", 2)] 3 [] [] rfl

/-- C9: whenever the run reaches report generation and text is persisted to
the results file, that text is exactly the text printed to the console. -/
theorem C9_console_file_identical (sale_results : List (Nat × ℚ)) (grand_total : ℚ)
    (elapsed_time : ℚ) (errors : List String) (writeOk : Bool) (s : String)
    (h : (print_and_write_results sale_results grand_total elapsed_time errors writeOk).2 =
      some s) :
    (print_and_write_results sale_results grand_total elapsed_time errors writeOk).1 = s := by
  unfold print_and_write_results at h ⊢
  cases writeOk with
  | false => simp at h
  | true => simpa using h

/-- Witness for C9 at an empty run with a successful write. -/
theorem C9_witness :
    (print_and_write_results [] 0 0 [] true).1 = reportText [] 0 0 [] :=
  C9_console_file_identical [] 0 0 [] true (reportText [] 0 0 []) rfl

theorem saleLoop_fst (price_map : List (String × ℚ)) (si : Nat) (xs : List JValue)
    (idx : Nat) (total : ℚ) (count : Nat) (e1 e2 : List String) :
    (saleLoop price_map si xs idx total count e1).1 =
      (saleLoop price_map si xs idx total count e2).1 := by
  induction xs generalizing idx total count e1 e2 with
  | nil => rfl
  | cons it rest ih =>
    simp only [saleLoop]
    cases itemOutcome price_map si idx it with
    | ok v => exact ih (idx + 1) (total + v) (count + 1) e1 e2
    | error msg => exact ih (idx + 1) total count (e1 ++ [msg]) (e2 ++ [msg])

theorem compute_sale_total_fst (items : JValue) (price_map : List (String × ℚ))
    (sale_index : Nat) (e1 e2 : List String) :
    (compute_sale_total items price_map sale_index e1).1 =
      (compute_sale_total items price_map sale_index e2).1 := by
  cases items
  case arr xs => exact saleLoop_fst price_map sale_index xs 0 0 0 e1 e2
  all_goals rfl

theorem salesLoop_results (price_map : List (String × ℚ)) (xs : List JValue) (i : Nat)
    (acc : List (Nat × ℚ)) (errs : List String) :
    (salesLoop price_map xs i acc errs).1 = acc ++ expectedResults price_map xs i := by
  induction xs generalizing i acc errs with
  | nil => simp [salesLoop, expectedResults]
  | cons sale rest ih =>
    cases sale
    case obj fields =>
      simp only [salesLoop, expectedResults, saleAccepted]
      by_cases hn : (objGet fields "items").isNull = true
      · simp only [hn, if_true, Bool.not_true, Bool.false_eq_true, if_false]
        exact ih (i + 1) acc _
      · have hb : (objGet fields "items").isNull = false := by simpa using hn
        simp only [hb, Bool.false_eq_true, if_false, Bool.not_false, if_true]
        rw [ih (i + 1) (acc ++ [(i, (compute_sale_total (objGet fields "items") price_map i errs).1.1)]) _]
        rw [compute_sale_total_fst (objGet fields "items") price_map i errs []]
        simp [saleValue, List.append_assoc]
    all_goals
      simp only [salesLoop, expectedResults, saleAccepted, Bool.false_eq_true, if_false]
      exact ih (i + 1) acc _

/-- C5: `compute_all_sales` emits exactly one `(sale_index, total)` result
for each input sale that is an object with a present `items` field — the
index being the sale's zero-based input position, so skipped sales leave
gaps — and no result for any other sale, however many of a sale's line
items fail validation. -/
theorem C5_aggregator (sales : List JValue) (price_map : List (String × ℚ))
    (errors : List String) :
    (compute_all_sales (JValue.arr sales) price_map errors).1 =
      expectedResults price_map sales 0 := by
  have h := salesLoop_results price_map sales 0 [] errors
  simpa [compute_all_sales] using h

theorem dictLookup_dictInsert (m : List (String × ℚ)) (k' : String) (v : ℚ) (k : String) :
    dictLookup (dictInsert m k' v) k = if k' = k then some v else dictLookup m k := by
  induction m with
  | nil =>
    by_cases h : k' = k <;> simp [dictInsert, dictLookup, h]
  | cons p rest ih =>
    obtain ⟨k0, v0⟩ := p
    by_cases h1 : k0 = k'
    · subst h1
      by_cases h2 : k0 = k <;> simp [dictInsert, dictLookup, h2]
    · by_cases h2 : k0 = k
      · subst h2
        have h3 : ¬ k' = k0 := fun h => h1 h.symm
        simp [dictInsert, dictLookup, h1, h3]
      · simp [dictInsert, dictLookup, h1, h2, ih]

theorem entryOutcome_toOption (i : Nat) (e : JValue) :
    (entryOutcome i e).toOption = entryValid e := by
  cases e
  case obj fields =>
    simp only [entryOutcome, entryValid]
    by_cases h1 : ((objGet fields "title").isNull || (objGet fields "price").isNull) = true
    · simp [h1, Except.toOption]
    · have h1' : ((objGet fields "title").isNull || (objGet fields "price").isNull) = false := by
        simpa using h1
      simp only [h1', Bool.false_eq_true, if_false]
      cases h2 : coerceFloat (objGet fields "price") with
      | none => simp [Except.toOption]
      | some pf => by_cases h3 : pf < 0 <;> simp [h3, Except.toOption]
  all_goals rfl

theorem catLoop_lookup (xs : List JValue) (idx : Nat) (price_map : List (String × ℚ))
    (errs : List String) (k : String) :
    dictLookup (catLoop xs idx price_map errs).1 k =
      optOr (lastValid xs k) (dictLookup price_map k) := by
  induction xs generalizing idx price_map errs with
  | nil => simp [catLoop, lastValid, optOr]
  | cons e rest ih =>
    simp only [catLoop, lastValid]
    cases ho : entryOutcome idx e with
    | error msg =>
      have hv : entryValid e = none := by
        rw [← entryOutcome_toOption idx e, ho]; rfl
      rw [ih (idx + 1) price_map (errs ++ [msg])]
      simp only [keyHit, hv]
      cases lastValid rest k <;> rfl
    | ok kv =>
      have hv : entryValid e = some kv := by
        rw [← entryOutcome_toOption idx e, ho]; rfl
      rw [ih (idx + 1) (dictInsert price_map kv.1 kv.2) errs]
      simp only [keyHit, hv]
      cases lastValid rest k with
      | some v => rfl
      | none =>
        simp only [optOr]
        rw [dictLookup_dictInsert]
        by_cases hk : kv.1 = k <;> simp [hk, optOr]

/-- C8: the Price Table built from a catalogue maps each normalized
(trimmed) title to the price of the *last* valid entry carrying that
normalized title — each valid entry is stored under its trimmed title and a
later valid entry with the same normalized title overwrites an earlier one. -/
theorem C8_last_write_wins (xs : List JValue) (errors : List String) (k : String) :
    dictLookup (build_price_map (JValue.arr xs) errors).1 k = lastValid xs k := by
  have h := catLoop_lookup xs 0 [] errors k
  simp only [build_price_map] at h ⊢
  rw [h]
  cases lastValid xs k <;> rfl

theorem mem_dictInsert (m : List (String × ℚ)) (k' : String) (v : ℚ) (k : String) (p : ℚ)
    (h : (k, p) ∈ dictInsert m k' v) : (k, p) ∈ m ∨ (k = k' ∧ p = v) := by
  induction m with
  | nil =>
    simp [dictInsert] at h
    exact Or.inr h
  | cons q rest ih =>
    obtain ⟨k0, v0⟩ := q
    simp only [dictInsert] at h
    by_cases h1 : k0 = k'
    · rw [if_pos h1] at h
      rcases List.mem_cons.mp h with h2 | h2
      · exact Or.inr ⟨congrArg Prod.fst h2, congrArg Prod.snd h2⟩
      · exact Or.inl (List.mem_cons_of_mem _ h2)
    · rw [if_neg h1] at h
      rcases List.mem_cons.mp h with h2 | h2
      · exact Or.inl (List.mem_cons.mpr (Or.inl h2))
      · rcases ih h2 with h3 | h3
        · exact Or.inl (List.mem_cons_of_mem _ h3)
        · exact Or.inr h3

theorem catLoop_mem (xs : List JValue) (idx : Nat) (price_map : List (String × ℚ))
    (errs : List String) (k : String) (p : ℚ)
    (h : (k, p) ∈ (catLoop xs idx price_map errs).1) :
    (k, p) ∈ price_map ∨ ∃ e ∈ xs, entryValid e = some (k, p) := by
  induction xs generalizing idx price_map errs with
  | nil => exact Or.inl (by simpa [catLoop] using h)
  | cons e rest ih =>
    simp only [catLoop] at h
    cases ho : entryOutcome idx e with
    | error msg =>
      rw [ho] at h
      rcases ih (idx + 1) price_map (errs ++ [msg]) h with h1 | ⟨e', he', hv⟩
      · exact Or.inl h1
      · exact Or.inr ⟨e', List.mem_cons_of_mem _ he', hv⟩
    | ok kv =>
      rw [ho] at h
      have hv : entryValid e = some kv := by
        rw [← entryOutcome_toOption idx e, ho]; rfl
      rcases ih (idx + 1) (dictInsert price_map kv.1 kv.2) errs h with h1 | ⟨e', he', hv'⟩
      · rcases mem_dictInsert price_map kv.1 kv.2 k p h1 with h2 | ⟨hk, hp⟩
        · exact Or.inl h2
        · refine Or.inr ⟨e, List.mem_cons_self e rest, ?_⟩
          rw [hv, hk, hp]
      · exact Or.inr ⟨e', List.mem_cons_of_mem _ he', hv'⟩

theorem entryValid_props (e : JValue) (k : String) (p : ℚ)
    (h : entryValid e = some (k, p)) :
    0 ≤ p ∧ ∃ fields, e = JValue.obj fields ∧
      coerceFloat (objGet fields "price") = some p ∧
      k = pyStrip (pyStr (objGet fields "title")) := by
  cases e
  case obj fields =>
    simp only [entryValid] at h
    by_cases h1 : ((objGet fields "title").isNull || (objGet fields "price").isNull) = true
    · simp [h1] at h
    · have h1' : ((objGet fields "title").isNull || (objGet fields "price").isNull) = false := by
        simpa using h1
      rw [h1'] at h
      simp only [Bool.false_eq_true, if_false] at h
      cases h2 : coerceFloat (objGet fields "price") with
      | none => rw [h2] at h; simp at h
      | some pf =>
        rw [h2] at h
        by_cases h3 : pf < 0
        · simp [h3] at h
        · simp only [h3, if_false] at h
          obtain ⟨hk, hp⟩ := Prod.mk.injEq .. ▸ Option.some.inj h
          refine ⟨?_, fields, rfl, ?_, hk.symm⟩
          · rw [← hp]; exact le_of_not_lt h3
          · rw [h2, hp]
  all_goals simp [entryValid] at h

/-- C3: every `(name, price)` pair stored in the Price Table has a
non-negative price that equals the float coercion of some catalogue entry's
`price` value, the name being that entry's trimmed title. -/
theorem C3_price_invariant (catalogue_data : JValue) (errors : List String)
    (k : String) (p : ℚ) (h : (k, p) ∈ (build_price_map catalogue_data errors).1) :
    0 ≤ p ∧ ∃ xs, catalogue_data = JValue.arr xs ∧ ∃ e ∈ xs, ∃ fields,
      e = JValue.obj fields ∧ coerceFloat (objGet fields "price") = some p ∧
      k = pyStrip (pyStr (objGet fields "title")) := by
  cases catalogue_data
  case arr xs =>
    simp only [build_price_map] at h
    rcases catLoop_mem xs 0 [] errors k p h with h1 | ⟨e, he, hv⟩
    · simp at h1
    · obtain ⟨h0, fields, hf, hc, hk⟩ := entryValid_props e k p hv
      exact ⟨h0, xs, rfl, e, he, fields, hf, hc, hk⟩
  all_goals simp [build_price_map] at h

/-- Witness for C3 at a one-entry catalogue storing `"A" → 2`. -/
theorem C3_witness :
    0 ≤ (2 : ℚ) ∧ ∃ xs,
      JValue.arr [JValue.obj [("title", JValue.str " A "), ("price", JValue.int 2)]] =
        JValue.arr xs ∧ ∃ e ∈ xs, ∃ fields, e = JValue.obj fields ∧
        coerceFloat (objGet fields "price") = some 2 ∧
        "A" = pyStrip (pyStr (objGet fields "title")) :=
  C3_price_invariant
    (JValue.arr [JValue.obj [("title", JValue.str " A "), ("price", JValue.int 2)]])
    [] "A" 2 (by with_unfolding_all decide)

/-- C2: in every run that produces a report, the grand total is the exact
sum of the emitted Sale Result totals (it is obtained by summing them, not
recomputed from the raw data), and the console text renders that exact
value — two-decimal rounding happens only inside the display formatting of
`reportText`, never during accumulation. -/
theorem C2_grand_total (catalogue_data sales_data : JValue) (elapsed_time : ℚ)
    (writeOk : Bool) (rs : List (Nat × ℚ)) (gt : ℚ) (errs : List String)
    (console : String) (file : Option String) (ec : Nat)
    (h : mainRun catalogue_data sales_data elapsed_time writeOk =
      MainResult.report rs gt errs console file ec) :
    gt = (rs.map (fun p => p.2)).sum ∧
    console = reportText rs gt elapsed_time errs := by
  simp only [mainRun] at h
  by_cases he : (build_price_map catalogue_data []).1.isEmpty = true
  · rw [if_pos he] at h
    exact absurd h (by simp)
  · rw [if_neg he] at h
    simp only [MainResult.report.injEq] at h
    obtain ⟨h1, h2, h3, h4, h5, h6⟩ := h
    subst h1; subst h2; subst h3; subst h4
    exact ⟨rfl, rfl⟩

/-- Witness for C2 at a one-product catalogue and an empty sales list. -/
theorem C2_witness :
    (0 : ℚ) = (([] : List (Nat × ℚ)).map (fun p => p.2)).sum ∧
    reportText [] 0 0 [] = reportText [] 0 0 [] :=
  C2_grand_total
    (JValue.arr [JValue.obj [("title", JValue.str "A"), ("price", JValue.int 2)]])
    (JValue.arr []) 0 true [] 0 [] (reportText [] 0 0 []) (some (reportText [] 0 0 [])) 0
    (by with_unfolding_all rfl)

/-- C6: when the Price Table comes out empty — whether the catalogue was
not a sequence or every entry was invalid — the run prints
"No valid products in catalogue. Cannot compute sales." and exits with
status 1, for every sales input (no sale is evaluated). -/
theorem C6_empty_catalogue (catalogue_data sales_data : JValue) (elapsed_time : ℚ)
    (writeOk : Bool) (h : (build_price_map catalogue_data []).1 = []) :
    mainRun catalogue_data sales_data elapsed_time writeOk =
      MainResult.fatal "No valid products in catalogue. Cannot compute sales." 1 := by
  simp [mainRun, h]

/-- Witness for C6 at the spec's example: a catalogue whose only entry has
a negative price yields an empty table and the fatal exit. -/
theorem C6_witness :
    mainRun
      (JValue.arr [JValue.obj [("title", JValue.str "Gadget"), ("price", JValue.int (-1))]])
      (JValue.arr [JValue.obj [("items", JValue.arr [])]]) 0 true =
      MainResult.fatal "No valid products in catalogue. Cannot compute sales." 1 :=
  C6_empty_catalogue
    (JValue.arr [JValue.obj [("title", JValue.str "Gadget"), ("price", JValue.int (-1))]])
    (JValue.arr [JValue.obj [("items", JValue.arr [])]]) 0 true
    (by with_unfolding_all decide)

